import Mathlib

/-!
Verification development for the kolett delivery engine
(`src/kolett/protocol.py`, `src/kolett/engine.py`, `src/kolett/templating.py`,
`src/kolett/plugins/...`).  The Python code is shallowly embedded: paths are
"/"-separated strings, the filesystem is an abstract read-only view plus an
explicit list of mutation effects, and Python exceptions are `Except` values.
-/

deriving instance DecidableEq for Except

namespace Kolett

/-! ### Path model (pathlib over "/"-separated strings)

Paths are assumed normalised (no trailing slash, no empty components except a
leading one for absolute paths), which matches every path the engine builds.
All helpers are written over `List Char` with structural recursion so that
concrete runs of the model evaluate inside the kernel.
-/

/-- The character `\x7b`. -/
def lbrace : Char := Char.ofNat 123

/-- The character `\x7d`. -/
def rbrace : Char := Char.ofNat 125

/-- Split a character list on a separator (Python `str.split` semantics:
the empty string yields one empty part). -/
def splitCharsOn (sep : Char) : List Char → List (List Char)
  | [] => [[]]
  | c :: cs =>
      let rest := splitCharsOn sep cs
      if c = sep then [] :: rest
      else
        match rest with
        | r :: rs => (c :: r) :: rs
        | [] => [[c]]

/-- The "/"-separated components of a path string. -/
def pathParts (p : String) : List String :=
  (splitCharsOn '/' p.data).map String.mk

/-- Concatenate components with "/" between them. -/
def joinWithSlash : List String → String
  | [] => ""
  | [s] => s
  | s :: rest => s ++ "/" ++ joinWithSlash rest

/-- `pathlib` `/` join: an absolute right operand replaces the left one. -/
def pathJoin (a b : String) : String :=
  if b.data.head? = some '/' then b else a ++ "/" ++ b

/-- `Path(p).name`: the final path component. -/
def baseName (p : String) : String :=
  (pathParts p).getLastD p

/-- `Path(p).parent`: all components but the last (`.` for a bare name, `/`
for a first-level absolute path). -/
def parentPath (p : String) : String :=
  let parts := pathParts p
  if parts.length ≤ 1 then "."
  else if parts.dropLast = [""] then "/"
  else joinWithSlash parts.dropLast

/-- Index of the last occurrence of a dot in `cs`, if any. -/
def lastDotIdx (cs : List Char) : Option Nat :=
  ((List.range cs.length).filter (fun i => cs.getD i ' ' = '.')).getLast?

/-- `pathlib` stem/suffix of a file NAME: the suffix starts at the last dot,
provided that dot is neither the first nor the last character; otherwise the
suffix is empty and the stem is the whole name. -/
def pyStemSuffix (name : String) : String × String :=
  let cs := name.data
  match lastDotIdx cs with
  | some i =>
      if 0 < i ∧ i < cs.length - 1 then (⟨cs.take i⟩, ⟨cs.drop i⟩)
      else (name, "")
  | none => (name, "")

/-- Python `s.lstrip(".")`: drop every leading dot. -/
def lstripDots (s : String) : String :=
  ⟨s.data.dropWhile (· = '.')⟩

/-! ### Template model (`templating.py`, `render_path`, lines 26-32)

`render_path` builds a bare `jinja2.Template` from the template string and
renders it with the metadata as keyword arguments.  The modelled fragment is:
literal text, plain variable substitutions `\x7b\x7b x \x7d\x7d`, and single
attribute accesses `\x7b\x7b x.y \x7d\x7d` — the constructs the engine's
templates and the spec's contract exercise.  Expressions outside the
fragment (subscripts, arithmetic, filters, chained accesses) are not
modelled; no theorem below depends on them.

Three facts of jinja2 are embedded faithfully for the fragment:
construction fails with `TemplateSyntaxError` on malformed syntax (an
unclosed expression); rendering a PLAIN variable that is absent from the
metadata produces the EMPTY STRING (the default `Undefined` prints as ""),
not an error; and an attribute access is evaluated at RENDER time via
`environment.getattr` — on a key absent from the metadata the access hits
`Undefined.__getattr__`, which raises `UndefinedError` (a `TemplateError`),
while on a present key (whose value here is always a plain string, and whose
attribute is not one of Python's built-in `str` attributes, as in the
fixtures below) both `getattr` and `getitem` fail and the environment
substitutes its undefined, which prints as the empty string.  So whether
rendering fails can depend on the metadata mapping, not only on the
template text.
-/

/-- A lexed template token: a literal character run, a plain variable
reference, or a single attribute access `name.fld`. -/
inductive Tok where
  | lit (s : String)
  | var (name : String)
  | attr (name fld : String)
deriving DecidableEq, Repr

/-- A jinja2 identifier: a letter or underscore followed by letters, digits or
underscores. -/
def isIdent (s : String) : Bool :=
  match s.data with
  | [] => false
  | c :: rest => (c.isAlpha || c = '_') && rest.all (fun d => d.isAlphanum || d = '_')

/-- ASCII whitespace, as tolerated around a jinja2 variable name. -/
def isSpaceChar (c : Char) : Bool :=
  c = ' ' ∨ c = '\t' ∨ c = '\n' ∨ c = '\r'

/-- Strip leading and trailing whitespace. -/
def trimChars (s : String) : String :=
  ⟨((s.data.dropWhile isSpaceChar).reverse.dropWhile isSpaceChar).reverse⟩

/-- Finish an accumulated `\x7b\x7b ... \x7d\x7d` expression: the trimmed
content is a plain identifier or a dotted `name.fld` attribute access
(spaces around the dot are tolerated, as in jinja2); anything outside the
modelled fragment is reported as a construction error. -/
def finishExpr (accRev : List Char) : Except String Tok :=
  let s := trimChars (String.mk accRev.reverse)
  if isIdent s then .ok (Tok.var s)
  else
    match (splitCharsOn '.' s.data).map (fun cs => trimChars (String.mk cs)) with
    | [a, b] =>
        if isIdent a ∧ isIdent b then .ok (Tok.attr a b)
        else .error ("unexpected expression in template: " ++ s)
    | _ => .error ("unexpected expression in template: " ++ s)

/-- One-pass template scanner.  `none` mode is literal text; `some accRev`
is inside a variable expression with the (reversed) content so far. -/
def scan : Option (List Char) → List Char → Except String (List Tok)
  | none, [] => .ok []
  | none, [c] => .ok [Tok.lit (String.singleton c)]
  | none, c :: d :: cs =>
      if c = lbrace ∧ d = lbrace then
        scan (some []) cs
      else
        match scan none (d :: cs) with
        | .ok ts => .ok (Tok.lit (String.singleton c) :: ts)
        | .error e => .error e
  | some _, [] => .error "unexpected end of template"
  | some _, [_] => .error "unexpected end of template"
  | some accRev, c :: d :: cs =>
      if c = rbrace ∧ d = rbrace then
        match finishExpr accRev with
        | .ok tok =>
            match scan none cs with
            | .ok ts => .ok (tok :: ts)
            | .error e => .error e
        | .error e => .error e
      else scan (some (c :: accRev)) (d :: cs)

/-- Parse a template string into tokens (`jinja2.Template(template_str)`);
errors model `TemplateSyntaxError`. -/
def parseTemplate (t : String) : Except String (List Tok) :=
  scan none t.data

/-- Python `dict.get` over an insertion-ordered association list. -/
def dictGet (m : List (String × String)) (k : String) : Option String :=
  (m.find? (fun p => p.1 = k)).map (·.2)

/-- Python `dict` update of one key: replace in place if present, else append. -/
def dictSet (m : List (String × String)) (k v : String) : List (String × String) :=
  if m.any (fun p => p.1 = k) then
    m.map (fun p => if p.1 = k then (k, v) else p)
  else m ++ [(k, v)]

/-- The `jinja2.exceptions.UndefinedError` message raised by an operation on
the undefined value of a missing variable (Python quotes the name:
`x is undefined`). -/
def undefinedErr (name : String) : String := name ++ " is undefined"

/-- Evaluate one token at render time.  A plain absent variable prints as the
empty string (default `Undefined`); an attribute access on an absent key
raises `UndefinedError`, while on a present string-valued key it yields the
environment's undefined (printed as the empty string) — see the section
comment for the jinja2 trace. -/
def renderTok (m : List (String × String)) : Tok → Except String String
  | Tok.lit s => .ok s
  | Tok.var n => .ok ((dictGet m n).getD "")
  | Tok.attr n _ =>
      match dictGet m n with
      | some _ => .ok ""
      | none => .error (undefinedErr n)

/-- Render lexed tokens: concatenate the token values, propagating
render-time failures. -/
def renderToks (toks : List Tok) (m : List (String × String)) :
    Except String String := do
  let parts ← toks.mapM (renderTok m)
  .ok (String.join parts)

/-- `templating.render_path` (templating.py lines 26-32):
`Template(template_str).render(**metadata)` — a construction-time
`TemplateSyntaxError` or a render-time `UndefinedError` is an error value. -/
def render_path (template_str : String) (metadata : List (String × String)) :
    Except String String :=
  match parseTemplate template_str with
  | .ok toks => renderToks toks metadata
  | .error e => .error e

/-! ### Data model (`protocol.py`)

The pydantic models are embedded as structures with exactly the fields the
source declares.  `Dict[str, str]` is an insertion-ordered association list.
Two pydantic facts used below: a model constructor silently IGNORES keyword
arguments that are not declared fields (default `extra` behaviour), and
attribute access on an undeclared field raises `AttributeError`.
-/

/-- `protocol.PackageItem` (protocol.py lines 6-19): `source_path`,
`target_template`, `metadata`.  Note: the source declares NO `process_method`
field. -/
structure PackageItem where
  source_path : String
  target_template : String
  metadata : List (String × String) := []
deriving DecidableEq, Repr

/-- Callback plugin configuration, reduced to the only key the dispatcher
reads: `plugin_config.get("enabled", True)` (engine.py line 193). -/
structure CallbackConfig where
  enabled : Bool := true
deriving DecidableEq, Repr

/-- `protocol.DeliveryInput` (protocol.py lines 22-45). -/
structure DeliveryInput where
  package_name : String
  client_config : String
  items : List PackageItem
  callbacks : List (String × CallbackConfig) := []
  notifications : List String := []
  destination_root : Option String := none
  dry_run : Bool := false
deriving DecidableEq, Repr

/-- `protocol.ItemResult` (protocol.py lines 48-56): `source`, `destination`,
`success`, `error`.  Note: the source declares NO `description` field. -/
structure ItemResult where
  source : String
  destination : String
  success : Bool
  error : Option String := none
deriving DecidableEq, Repr

/-- `protocol.DeliveryOutput` (protocol.py lines 59-70). -/
structure DeliveryOutput where
  package_name : String
  delivery_path : String
  manifest_path : String
  timestamp : String
  results : List ItemResult
  summary : String
deriving DecidableEq, Repr

/-- Models the constructor call
`PackageItem(source_path=..., target_template=..., process_method=...,
metadata=...)` performed by the Grist input plugin
(plugins/input/grist/plugin.py lines 115-122): pydantic ignores the unknown
`process_method` keyword because `PackageItem` declares no such field, so the
argument is discarded. -/
def packageItemInit (source_path target_template process_method : String)
    (metadata : List (String × String)) : PackageItem :=
  { source_path := source_path, target_template := target_template,
    metadata := metadata }

/-- Models the constructor call
`ItemResult(source=..., destination=..., description=..., success=...)` at
engine.py lines 116-124: pydantic ignores the unknown `description` keyword
because `ItemResult` declares no such field, so the argument is discarded
(and `error` keeps its `None` default there). -/
def itemResultInit (source destination : String) (description : Option String)
    (success : Bool) (error : Option String) : ItemResult :=
  { source := source, destination := destination, success := success,
    error := error }

/-! ### Filesystem view and mutation effects -/

/-- Read-only view of the filesystem at the start of a delivery:
`Path.exists`, `Path.is_dir`, and the top-level regular files of a directory
(`[f for f in source.iterdir() if f.is_file()]`, in iteration order). -/
structure FS where
  pathExists : String → Bool
  isDir : String → Bool
  dirFiles : String → List String

/-- A filesystem mutation performed by the engine or a process plugin. -/
inductive FSEffect where
  | mkdir (path : String)
  | copyFile (src dst : String)
  | unlink (path : String)
  | symlink (src dst : String)
  | writeFile (path : String)
deriving DecidableEq, Repr

/-! ### Process plugins (`plugins/process/copy/plugin.py`,
`plugins/process/symlink/plugin.py`)

Both `Plugin.run` methods return the pair
`(success flag, actual final destination path)` required by
`ProcessPlugin.run` (plugins/base.py lines 44-59).  Failure modes outside the
filesystem view (permissions, I/O errors) are not representable; a copy fails
in the model exactly when the source is missing.  Best-effort `os.utime`
timestamp preservation is outside the model.
-/

/-- Plugin config, reduced to the only key both plugins read:
`self.config.get("target_template")`. -/
structure ProcessPluginConfig where
  target_template : Option String := none
deriving DecidableEq, Repr

/-- Destination resolution shared by copy and symlink (their lines 29-45):
a configured plugin-level `target_template` replaces the filename part of the
engine-supplied destination; on rendering failure the engine destination is
kept. -/
def pluginDestPath (config : ProcessPluginConfig)
    (destination : String) (metadata : List (String × String)) : String :=
  match config.target_template with
  | some t =>
      match render_path t metadata with
      | .ok fname => pathJoin (parentPath destination) fname
      | .error _ => destination
  | none => destination

/-- `plugins/process/copy/plugin.py`, `Plugin.run` (lines 24-73). -/
def copyRun (config : ProcessPluginConfig) (dry_run : Bool) (fs : FS)
    (source destination : String) (metadata : List (String × String)) :
    (Bool × String) × List FSEffect :=
  let dest_path := pluginDestPath config destination metadata
  if dry_run then ((true, dest_path), [])
  else if fs.pathExists source then
    ((true, dest_path),
      [FSEffect.mkdir (parentPath dest_path), FSEffect.copyFile source dest_path])
  else
    ((false, dest_path), [FSEffect.mkdir (parentPath dest_path)])

/-- `plugins/process/symlink/plugin.py`, `Plugin.run` (lines 23-66): an
existing destination (including a stale link) is removed first. -/
def symlinkRun (config : ProcessPluginConfig) (dry_run : Bool) (fs : FS)
    (source destination : String) (metadata : List (String × String)) :
    (Bool × String) × List FSEffect :=
  let dest_path := pluginDestPath config destination metadata
  if dry_run then ((true, dest_path), [])
  else
    ((true, dest_path),
      FSEffect.mkdir (parentPath dest_path) ::
        (if fs.pathExists dest_path then [FSEffect.unlink dest_path] else []) ++
          [FSEffect.symlink source dest_path])

/-! ### Delivery orchestrator (`engine.py`, `KolettEngine.process_delivery`)

`process_delivery` is embedded as a pure function of the engine config, the
filesystem view, the wall-clock timestamp string, and the `DeliveryInput`; it
returns the `DeliveryOutput` together with the list of filesystem mutations
performed, in order.

The decisive control-flow fact, traceable in the source: at engine.py line
109 the engine evaluates `item.process_method`, but `PackageItem`
(protocol.py lines 6-19) declares no `process_method` field, so Python raises
`AttributeError` there — before `_run_process_plugin` is entered and before
the `ItemResult` constructor call at lines 116-124 can run.  The exception is
caught by the per-item handler at line 128, which records one failed
`ItemResult` with `error=str(e)` and moves to the next item.  The
`AttributeError` is raised for the FIRST resolved file of the item, after the
per-file metadata enrichment, template rendering, target-path computation and
(outside dry runs) the `target_path.parent` mkdir of lines 76-105 have
executed for that file.
-/

/-- Engine config, reduced to the keys `process_delivery` reads:
`config["storage"]["root"]` with its default (engine.py lines 19-21). -/
structure EngineConfig where
  default_root : String := "/tmp/kolett_deliveries"
deriving DecidableEq, Repr

/-- `str(e)` of the `AttributeError` raised at engine.py line 109 (Python
prints it quoted: `PackageItem object has no attribute process_method`). -/
def attrErrProcessMethod : String :=
  "PackageItem object has no attribute process_method"

/-- `str(e)` of the `AttributeError` raised by `res.description` in the
manifest plugin (Python prints it quoted:
`ItemResult object has no attribute description`). -/
def attrErrDescription : String :=
  "ItemResult object has no attribute description"

/-- Per-file metadata enrichment (engine.py lines 78-85): copy the item
metadata and update `src_name`, `src_base`, `src_ext`. -/
def enrichMetadata (metadata : List (String × String)) (srcFile : String) :
    List (String × String) :=
  let name := baseName srcFile
  let ss := pyStemSuffix name
  dictSet (dictSet (dictSet metadata "src_name" name) "src_base" ss.1)
    "src_ext" (lstripDots ss.2)

/-- Target filename resolution (engine.py lines 88-99): render the item
template when it is non-empty (Python truthiness), falling back to the
original file name when rendering raises. -/
def targetFilename (item : PackageItem)
    (fileMetadata : List (String × String)) (srcFile : String) : String :=
  if item.target_template ≠ "" then
    match render_path item.target_template fileMetadata with
    | .ok s => s
    | .error _ => baseName srcFile
  else baseName srcFile

/-- One iteration of the item loop (engine.py lines 56-137), returning the
`ItemResult`s recorded for the item and the filesystem mutations performed. -/
def processItem (fs : FS) (delivery_path : String) (dry_run : Bool)
    (item : PackageItem) : List ItemResult × List FSEffect :=
  if ¬ fs.pathExists item.source_path then
    -- lines 59-62 raise FileNotFoundError, caught at line 128
    ([{ source := item.source_path, destination := "", success := false,
        error := some ("Source path does not exist: " ++ item.source_path) }],
      [])
  else
    let sources_to_copy :=
      if fs.isDir item.source_path then fs.dirFiles item.source_path
      else [item.source_path]
    match sources_to_copy with
    | [] => ([], [])  -- empty directory: warning only, zero results (line 71)
    | srcFile :: _ =>
        -- first file: lines 78-105 run, then line 109 raises AttributeError
        let fileMetadata := enrichMetadata item.metadata srcFile
        let tname := targetFilename item fileMetadata srcFile
        let tpath := pathJoin delivery_path tname
        let effs :=
          if dry_run then [] else [FSEffect.mkdir (parentPath tpath)]
        ([{ source := item.source_path, destination := "", success := false,
            error := some attrErrProcessMethod }], effs)

/-! ### Sequence grouping (`plugins/output/manifest/plugin.py`,
`_group_sequences`, lines 65-137)

Every branch of `_group_sequences` reads `res.description`, an attribute
`ItemResult` does not declare, so the attribute access raises; the raise is
modelled with `Except`.  The grouping key, regex match and frame arithmetic
are embedded faithfully so the error arises exactly where the source would
raise it.
-/

/-- A display entry: the dict built by `_group_sequences`.  Successful
entries carry no `error` key in the source; that is modelled as `none`. -/
structure DisplayEntry where
  source : String
  destination : String
  description : Option String
  success : Bool
  error : Option String := none
deriving DecidableEq, Repr

/-- Attribute access `res.description` (plugin lines 83, 102, 115, 131):
`ItemResult` (protocol.py lines 48-56) declares no `description` field, so
the access raises `AttributeError`. -/
def attrDescription (_ : ItemResult) : Except String (Option String) :=
  .error attrErrDescription

/-- The frame regex `(.*?)[._](digits).(alnum)$ ` (plugin line 71) on a file
name: the maximal digit run ending just before the last dot, a `.` or `_`
separator immediately before the run, and a nonempty alphanumeric extension
after the last dot.  Returns `(prefix, frame number, extension)`. -/
def matchSeq (name : String) : Option (String × Nat × String) :=
  let cs := name.data
  match lastDotIdx cs with
  | none => none
  | some i =>
      let ext := cs.drop (i + 1)
      if ext ≠ [] ∧ ext.all Char.isAlphanum then
        let ds := ((cs.take i).reverse.takeWhile Char.isDigit).reverse
        if ds ≠ [] ∧ i - ds.length ≥ 1 ∧
            (cs.getD (i - ds.length - 1) ' ' = '.' ∨
              cs.getD (i - ds.length - 1) ' ' = '_') then
          some (String.mk (cs.take (i - ds.length - 1)),
            ds.foldl (fun n c => n * 10 + (c.toNat - 48)) 0,
            String.mk ext)
        else none
      else none

/-- Grouping key: `(directory, prefix, extension)` (plugin line 95). -/
def SeqKey : Type := String × String × String

instance : DecidableEq SeqKey := by
  unfold SeqKey
  infer_instance

/-- `defaultdict(list)` insert preserving first-insertion key order. -/
def seqInsert (seqs : List (SeqKey × List (Nat × ItemResult)))
    (k : SeqKey) (v : Nat × ItemResult) :
    List (SeqKey × List (Nat × ItemResult)) :=
  if seqs.any (fun kv => kv.1 = k) then
    seqs.map (fun kv => if kv.1 = k then (kv.1, kv.2 ++ [v]) else kv)
  else seqs ++ [(k, [v])]

/-- Stable insertion of a frame into a frame-sorted list (models the
`frames.sort()` of plugin line 110, which orders by the leading int). -/
def insertFrame (v : Nat × ItemResult) :
    List (Nat × ItemResult) → List (Nat × ItemResult)
  | [] => [v]
  | w :: ws => if v.1 < w.1 then v :: w :: ws else w :: insertFrame v ws

/-- Stable sort by frame number. -/
def sortFrames (l : List (Nat × ItemResult)) : List (Nat × ItemResult) :=
  l.foldr insertFrame []

/-- First pass of `_group_sequences` (plugin lines 76-105): partition the
results into sequence groups and pass-through entries.  Reading
`res.description` for a failed or non-matching result raises. -/
def groupStep
    (acc : List (SeqKey × List (Nat × ItemResult)) × List DisplayEntry)
    (res : ItemResult) :
    Except String
      (List (SeqKey × List (Nat × ItemResult)) × List DisplayEntry) :=
  if ¬ res.success then do
    let d ← attrDescription res
    .ok (acc.1,
      acc.2 ++ [{ source := res.source, destination := res.destination,
                  description := d, success := false, error := res.error }])
  else
    match matchSeq (baseName res.destination) with
    | some pfe =>
        .ok (seqInsert acc.1 (parentPath res.destination, pfe.1, pfe.2.2)
          (pfe.2.1, res), acc.2)
    | none => do
        let d ← attrDescription res
        .ok (acc.1,
          acc.2 ++ [{ source := res.source, destination := res.destination,
                      description := d, success := true }])

/-- Second pass (plugin lines 107-135): emit one display entry per group,
collapsing groups of two or more frames to `prefix.[min-max].ext`. -/
def emitGroup (kf : SeqKey × List (Nat × ItemResult)) :
    Except String (List DisplayEntry) :=
  match sortFrames kf.2 with
  | [] => .ok []
  | f0 :: rest =>
      if rest = [] then do
        -- single frame: plugin lines 126-135
        let d ← attrDescription f0.2
        .ok [{ source := baseName f0.2.source,
               destination := baseName f0.2.destination,
               description := d, success := true }]
      else do
        -- plugin lines 109-124
        let startF := f0.1
        let endF := ((f0 :: rest).getLastD f0).1
        let seqName := kf.1.2.1 ++ ".[" ++ toString startF ++ "-" ++
          toString endF ++ "]." ++ kf.1.2.2
        let d ← attrDescription f0.2
        .ok [{ source := seqName, destination := seqName,
               description := d, success := true }]

/-- `_group_sequences` (plugin lines 65-137): sequence-grouped successful
entries first, then the pass-through entries. -/
def group_sequences (results : List ItemResult) :
    Except String (List DisplayEntry) := do
  let acc ← results.foldlM groupStep ([], [])
  let groups ← acc.1.mapM emitGroup
  .ok (groups.flatten ++ acc.2)

/-! ### Callback dispatch (`engine.py`, `_run_callbacks`, lines 182-209)

Only the manifest output plugin mutates the filesystem (it writes
`manifest.md`; the mattermost/email/apprise/grist_update plugins only read or
talk to the network).  The manifest plugin (plugins/output/manifest/plugin.py
lines 21-63) returns before writing under `dry_run`; otherwise it writes the
manifest unless `_group_sequences` (or rendering) raises — template loading
and rendering are modelled as succeeding when reached. -/

/-- Filesystem mutations of one `manifest` callback run. -/
def manifestRunEffects (dry_run : Bool) (output : DeliveryOutput) :
    List FSEffect :=
  if dry_run then []
  else
    match group_sequences output.results with
    | .error _ => []
    | .ok _ => [FSEffect.writeFile (pathJoin output.delivery_path "manifest.md")]

/-- Filesystem mutations of `_run_callbacks`: enabled callbacks run in input
order; only `manifest` can mutate the filesystem. -/
def runCallbackEffects (delivery : DeliveryInput) (output : DeliveryOutput) :
    List FSEffect :=
  (delivery.callbacks.map (fun nc =>
    if ¬ nc.2.enabled then []
    else if nc.1 = "manifest" then manifestRunEffects delivery.dry_run output
    else [])).flatten

/-- `KolettEngine.process_delivery` (engine.py lines 26-155): the returned
`DeliveryOutput` and the ordered filesystem mutations of the run.
`timestamp` stands for `datetime.datetime.now().strftime(...)`. -/
def process_delivery (cfg : EngineConfig) (fs : FS) (timestamp : String)
    (delivery : DeliveryInput) : DeliveryOutput × List FSEffect :=
  let dest_root := delivery.destination_root.getD cfg.default_root
  let delivery_path := pathJoin dest_root delivery.package_name
  let rootEffs :=
    if delivery.dry_run then [] else [FSEffect.mkdir delivery_path]
  let perItem := delivery.items.map (processItem fs delivery_path delivery.dry_run)
  let results := (perItem.map Prod.fst).flatten
  let itemEffs := (perItem.map Prod.snd).flatten
  let success_count := results.countP (·.success)
  let summary := "Successfully delivered " ++ toString success_count ++
    " files across " ++ toString delivery.items.length ++ " items."
  let output : DeliveryOutput :=
    { package_name := delivery.package_name,
      delivery_path := delivery_path,
      manifest_path := pathJoin delivery_path "manifest.md",
      timestamp := timestamp,
      results := results,
      summary := summary }
  (output, rootEffs ++ itemEffs ++ runCallbackEffects delivery output)

/-- The number of resolved files of a package, following the spec wording
("if `source_path` is a regular file, the set is that one file; if it is a
directory, the set is its immediate file children"); used to compare the
summary of the code against the file count the spec claims it reports. -/
def resolvedFileCount (fs : FS) (delivery : DeliveryInput) : Nat :=
  (delivery.items.map (fun item =>
    if ¬ fs.pathExists item.source_path then 0
    else if fs.isDir item.source_path then
      (fs.dirFiles item.source_path).length
    else 1)).sum

/-! ### Concrete fixtures used by the claim theorems -/

/-- A filesystem with one regular source file `/assets/logo.png`. -/
def fsLogo : FS :=
  { pathExists := fun p => p = "/assets/logo.png",
    isDir := fun _ => false,
    dirFiles := fun _ => [] }

/-- A one-item package whose item names an existing file and a renderable
template. -/
def pkgLogo : DeliveryInput :=
  { package_name := "PKGA", client_config := "std",
    items := [{ source_path := "/assets/logo.png",
                target_template := "\x7b\x7bitem_name\x7d\x7d.png",
                metadata := [("item_name", "Logo")] }],
    destination_root := some "/deliv" }

/-- A filesystem with one regular source file `/src/a.txt`. -/
def fsA : FS :=
  { pathExists := fun p => p = "/src/a.txt",
    isDir := fun _ => false,
    dirFiles := fun _ => [] }

/-- A one-item package for `/src/a.txt` with no template. -/
def pkgA : DeliveryInput :=
  { package_name := "PKG", client_config := "std",
    items := [{ source_path := "/src/a.txt", target_template := "" }],
    destination_root := some "/deliv" }

/-- A filesystem for the three-item partial-failure scenario: items 1 and 3
exist, item 2's source does not. -/
def fsThree : FS :=
  { pathExists := fun p => p = "/srcA/a.txt" ∨ p = "/srcC/c.txt",
    isDir := fun _ => false,
    dirFiles := fun _ => [] }

/-- The three-item package of the partial-failure scenario. -/
def pkgThree : DeliveryInput :=
  { package_name := "PKG", client_config := "std",
    items := [{ source_path := "/srcA/a.txt", target_template := "" },
              { source_path := "/srcB/b.txt", target_template := "" },
              { source_path := "/srcC/c.txt", target_template := "" }],
    destination_root := some "/deliv" }

/-- A filesystem with one source directory `/seq` holding two files. -/
def fsSeqDir : FS :=
  { pathExists := fun p => p = "/seq" ∨ p = "/seq/f1.exr" ∨ p = "/seq/f2.exr",
    isDir := fun p => p = "/seq",
    dirFiles := fun p => if p = "/seq" then ["/seq/f1.exr", "/seq/f2.exr"] else [] }

/-- A package with a single directory item that resolves to two files. -/
def pkgSeqDir : DeliveryInput :=
  { package_name := "PKGS", client_config := "std",
    items := [{ source_path := "/seq", target_template := "" }],
    destination_root := some "/deliv" }

/-- Successful result for frame 1001 of the `shot` sequence. -/
def resShot1001 : ItemResult :=
  { source := "/src/shot.1001.exr", destination := "/deliv/PKG/shot.1001.exr",
    success := true }

/-- Successful result for frame 1002 of the `shot` sequence. -/
def resShot1002 : ItemResult :=
  { source := "/src/shot.1002.exr", destination := "/deliv/PKG/shot.1002.exr",
    success := true }

/-- Successful result for frame 1003 of the `shot` sequence. -/
def resShot1003 : ItemResult :=
  { source := "/src/shot.1003.exr", destination := "/deliv/PKG/shot.1003.exr",
    success := true }

/-- A failed result, as the manifest grouping receives it. -/
def resFailed : ItemResult :=
  { source := "/src/missing.txt", destination := "", success := false,
    error := some "Source path does not exist: /src/missing.txt" }

/-! ### Helper lemmas -/

/-- A dry-run item iteration performs no filesystem mutation (the mkdirs of
engine.py lines 53 and 104 are guarded by `if not delivery.dry_run`). -/
theorem processItem_dry_run_effects (fs : FS) (p : String) (item : PackageItem) :
    (processItem fs p true item).2 = [] := by
  unfold processItem
  split
  · rfl
  · split
    · cases fs.dirFiles item.source_path <;> rfl
    · rfl

/-- The results an item iteration records do not depend on the dry-run flag
(engine.py only consults it for mkdir side effects and when invoking the
never-reached process plugin). -/
theorem processItem_results_indep (fs : FS) (p : String) (b : Bool)
    (item : PackageItem) :
    (processItem fs p b item).1 = (processItem fs p false item).1 := by
  unfold processItem
  split
  · rfl
  · split
    · cases fs.dirFiles item.source_path <;> rfl
    · rfl

/-- The flatten of a list all of whose members are nil is nil. -/
theorem flatten_eq_nil_of_forall {α : Type} (l : List (List α))
    (h : ∀ x ∈ l, x = []) : l.flatten = [] := by
  induction l with
  | nil => rfl
  | cons x xs ih =>
      have hx := h x (by simp)
      have ihx := ih (fun y hy => h y (by simp [hy]))
      simp [hx, ihx]

/-- A dry-run manifest callback performs no filesystem mutation
(plugins/output/manifest/plugin.py lines 33-35 return before writing). -/
theorem manifestRunEffects_dry (output : DeliveryOutput) :
    manifestRunEffects true output = [] := rfl

/-- A dry-run callback dispatch performs no filesystem mutation. -/
theorem runCallbackEffects_dry (d : DeliveryInput) (output : DeliveryOutput)
    (h : d.dry_run = true) : runCallbackEffects d output = [] := by
  unfold runCallbackEffects
  refine flatten_eq_nil_of_forall _ ?_
  intro x hx
  rcases List.mem_map.mp hx with ⟨nc, _, rfl⟩
  by_cases he : nc.2.enabled = true
  · by_cases hn : nc.1 = "manifest" <;> simp [he, hn, h, manifestRunEffects_dry]
  · simp [he]

/-! ### Claim theorems -/

/-- Claim C1 (code_bug).  The spec says every `PackageItem` carries a
`process_method` attribute (default "copy") naming the transfer strategy, and
that the orchestrator invokes that strategy per file.  In the source,
`PackageItem` declares no `process_method` field: the keyword passed by the
Grist connector is discarded (`packageItemInit` is independent of it), and a
delivery of a one-item package with an existing source records a single
failed `ItemResult` whose error is the `AttributeError` from
`item.process_method` — no strategy is ever invoked. -/
theorem packageItem_has_no_process_method :
    (∀ sp tt pm₁ pm₂ md,
      packageItemInit sp tt pm₁ md = packageItemInit sp tt pm₂ md) ∧
    (process_delivery {} fsLogo "ts" pkgLogo).1.results =
      [{ source := "/assets/logo.png", destination := "", success := false,
         error := some attrErrProcessMethod }] :=
  ⟨fun _ _ _ _ _ => rfl, by decide⟩

/-- Claim C2 (code_bug).  The transfer strategies do return the pair
`(success flag, final destination path)` — the copy plugin run on
`/src/a.txt` returns `(true, "/deliv/PKG/a.txt")` — but the orchestrator
never records that flag or path: delivering the same file yields a failed
`ItemResult` with empty destination and the `AttributeError` from
`item.process_method`, because the call site that would bind the pair
(engine.py lines 108-124, which also annotates the pair as `bool` and keeps
its own `target_path` as destination) is never reached. -/
theorem strategy_pair_not_recorded :
    copyRun {} false fsA "/src/a.txt" "/deliv/PKG/a.txt" [] =
      ((true, "/deliv/PKG/a.txt"),
        [FSEffect.mkdir "/deliv/PKG",
         FSEffect.copyFile "/src/a.txt" "/deliv/PKG/a.txt"]) ∧
    (process_delivery {} fsA "ts" pkgA).1.results =
      [{ source := "/src/a.txt", destination := "", success := false,
         error := some attrErrProcessMethod }] := by
  constructor <;> decide

/-- Claim C3 (code_bug).  In the three-item scenario with item 2 missing,
every item is still processed (three results are recorded, item 2's with the
missing-source error), but items 1 and 3 FAIL with the `process_method`
`AttributeError` instead of succeeding as the claim states: no result is
successful. -/
theorem partial_failure_scenario_all_items_fail :
    (process_delivery {} fsThree "ts" pkgThree).1.results =
      [{ source := "/srcA/a.txt", destination := "", success := false,
         error := some attrErrProcessMethod },
       { source := "/srcB/b.txt", destination := "", success := false,
         error := some "Source path does not exist: /srcB/b.txt" },
       { source := "/srcC/c.txt", destination := "", success := false,
         error := some attrErrProcessMethod }] ∧
    (process_delivery {} fsThree "ts" pkgThree).1.results.countP
      (·.success) = 0 := by
  constructor <;> decide

/-- Claim C4, counterexample.  The template `\x7b\x7bshot\x7d\x7d`
references the key "shot", which is absent from the empty metadata mapping,
yet `render_path` succeeds and returns "" — it does not fail with a
`TemplateError` as the claim requires. -/
theorem render_path_missing_key_renders_empty :
    render_path "\x7b\x7bshot\x7d\x7d" [] = .ok "" ∧
    dictGet [] "shot" = none := by
  constructor <;> decide

/-- Claim C4, amended.  `render_path` fails with a `TemplateError` when the
template contains unrenderable syntax (regardless of which keys the metadata
holds), and when it applies an operation — here an attribute access — to the
undefined value of a key absent from the metadata (a render-time failure
that depends on the metadata); but a PLAIN reference to a key absent from
the metadata does not fail: the reference renders as the empty string.
Otherwise it returns the rendered string. -/
theorem render_path_syntax_and_undefined_failures :
    render_path "pre_\x7b\x7b shot \x7d\x7d.exr" [("other", "x")] =
      .ok "pre_.exr" ∧
    render_path "\x7b\x7bshot" [] = .error "unexpected end of template" ∧
    render_path "\x7b\x7bshot" [("shot", "sh010")] =
      .error "unexpected end of template" ∧
    render_path "\x7b\x7b x.y \x7d\x7d" [] = .error (undefinedErr "x") ∧
    render_path "\x7b\x7b x.y \x7d\x7d" [("x", "abc")] = .ok "" := by
  refine ⟨by decide, by decide, by decide, by decide, by decide⟩

/-- Claim C5 (confirmed).  A dry run performs no filesystem mutation — the
engine emits no effects at all, and the copy/symlink plugins emit none under
`dry_run` — while the recorded results (hence their count and destination
paths) are identical to those of the non-dry-run invocation of the same
package on the same filesystem. -/
theorem dry_run_no_mutation_same_results (cfg : EngineConfig) (fs : FS)
    (ts : String) (d : DeliveryInput) :
    (process_delivery cfg fs ts { d with dry_run := true }).2 = [] ∧
    (process_delivery cfg fs ts { d with dry_run := true }).1.results =
      (process_delivery cfg fs ts { d with dry_run := false }).1.results ∧
    (∀ c fs₂ s dst m, (copyRun c true fs₂ s dst m).2 = [] ∧
      (symlinkRun c true fs₂ s dst m).2 = []) := by
  refine ⟨?_, ?_, fun c fs₂ s dst m => ⟨rfl, rfl⟩⟩
  · unfold process_delivery
    simp only [List.append_eq_nil]
    refine ⟨⟨by simp, ?_⟩, ?_⟩
    · refine flatten_eq_nil_of_forall _ ?_
      intro x hx
      rcases List.mem_map.mp hx with ⟨y, hy, rfl⟩
      rcases List.mem_map.mp hy with ⟨it, _, rfl⟩
      exact processItem_dry_run_effects _ _ _
    · exact runCallbackEffects_dry _ _ rfl
  · simp only [process_delivery, List.map_map]
    congr 1
    refine List.map_congr_left ?_
    intro it _
    exact processItem_results_indep fs _ true it

/-- Claim C6, counterexample.  A package with a single directory item whose
directory resolves to TWO files yields the summary "Successfully delivered 0
files across 1 items.": the denominator is the number of items (1), not the
number of resolved files (2) as the claim states. -/
theorem summary_counts_items_not_files :
    (process_delivery {} fsSeqDir "ts" pkgSeqDir).1.summary =
      "Successfully delivered 0 files across 1 items." ∧
    resolvedFileCount fsSeqDir pkgSeqDir = 2 := by
  constructor <;> decide

/-- Claim C6, amended.  The summary reports the count of successful results
against the total number of ITEMS of the package (not resolved files):
`Successfully delivered N files across K items.` with K the item count. -/
theorem summary_reports_success_count_and_item_count (cfg : EngineConfig)
    (fs : FS) (ts : String) (d : DeliveryInput) :
    (process_delivery cfg fs ts d).1.summary =
      "Successfully delivered " ++
        toString ((process_delivery cfg fs ts d).1.results.countP (·.success)) ++
        " files across " ++ toString d.items.length ++ " items." := rfl

/-- Claim C7 (code_bug).  `ItemResult` does not carry a description: the
`description` keyword the engine passes at its constructor call is discarded
(the constructed value is independent of it), and the manifest plugin's read
of `res.description` raises `AttributeError` for every `ItemResult`. -/
theorem itemResult_description_discarded :
    (∀ s dst d₁ d₂ b e, itemResultInit s dst d₁ b e = itemResultInit s dst d₂ b e) ∧
    (∀ r : ItemResult, attrDescription r = .error attrErrDescription) :=
  ⟨fun _ _ _ _ _ _ => rfl, fun _ => rfl⟩

/-- Claim C8 (code_bug).  The destinations `shot.1001.exr`, `shot.1002.exr`,
`shot.1003.exr` do form one frame group under the plugin's regex (`matchSeq`
extracts `("shot", frame, "exr")`), but `_group_sequences` raises the
`description` `AttributeError` instead of returning the collapsed entry
`shot.[1001-1003].exr`. -/
theorem group_sequences_raises_on_frame_sequence :
    matchSeq "shot.1001.exr" = some ("shot", 1001, "exr") ∧
    matchSeq "shot.1002.exr" = some ("shot", 1002, "exr") ∧
    matchSeq "shot.1003.exr" = some ("shot", 1003, "exr") ∧
    group_sequences [resShot1001, resShot1002, resShot1003] =
      .error attrErrDescription := by
  refine ⟨by decide, by decide, by decide, by decide⟩

/-- Claim C9 (code_bug).  `_group_sequences` produces no ordered output on
any nonempty input: already a single failed result makes it raise the
`description` `AttributeError` (only the empty list returns a list of
entries). -/
theorem group_sequences_raises_on_failed_result :
    group_sequences [resFailed] = .error attrErrDescription ∧
    group_sequences [] = .ok [] := by
  constructor <;> decide

/-- Claim C10 (confirmed).  For every config, filesystem, timestamp and
package — dry run or not, with or without callbacks — the returned
`DeliveryOutput` has `manifest_path` equal to the delivery path joined with
"manifest.md". -/
theorem manifest_path_unconditional (cfg : EngineConfig) (fs : FS)
    (ts : String) (d : DeliveryInput) :
    (process_delivery cfg fs ts d).1.manifest_path =
      pathJoin (process_delivery cfg fs ts d).1.delivery_path "manifest.md" := rfl

end Kolett
